import Mathlib

/-!
# Verification of the WuKongIM per-channel replication core

Shallow embedding of the `channel` type of the cluster package
(`src/unnamed/part_000`, second file) and the `channelReactorSub` type of the
server package (`src/unnamed/part_000`, first file).

Conventions of the embedding:
* Go byte slices are `List Nat`; `uint64`/`uint32` indices and terms are `Nat`
  (log indices grow by one per appended entry, so 64-bit wraparound is
  unreachable and is not modelled).
* Concurrency is resolved by explicit event parameters: a Go `select` is
  embedded as a function of the event that won the select, together with an
  admissibility predicate saying which events the runtime could deliver.
* External collaborators (the replica state machine `rc`, the message log
  storage, the local metadata storage) appear as oracle parameters giving the
  outcome of each external call.
* Tracing (`trace.GlobalTrace`, `traceRecord`) and logging are observational
  and are omitted.
* A Go `panic` is modelled by the `GoOutcome.panicked` constructor.
-/

set_option autoImplicit false

namespace WuKongIM

/-- Go byte slice. -/
abbrev Bytes := List Nat

/-- Reasons a modelled code path panics (`c.Panic(...)` or a runtime panic). -/
inductive PanicReason where
  /-- `appendLogs`: `c.Panic("append log error", ...)` after `AppendLog` fails. -/
  | appendLogError
  /-- `appendLogs`: `c.Panic("set stored failed", ...)`. -/
  | appendSetStoredFailed
  /-- `applyLogs`: `c.Panic("applyLogs: set stored failed", ...)`. -/
  | applySetStoredFailed
  /-- `handleLocalStoreMsgs`: `c.Panic("step local store message failed", ...)`. -/
  | stepLocalStoreFailed
  /-- `handleLocalStoreMsgs`: `c.Panic("applyLogStoreQueue: step ... failed", ...)`. -/
  | applyStepLocalStoreFailed
  /-- Go runtime panic: `close` of an already-closed channel. -/
  | closeOfClosedChannel
  /-- Go runtime panic: slice index out of range. -/
  | indexOutOfRange
  deriving DecidableEq, Repr

/-- Result of a Go function that can terminate the process by panicking. -/
inductive GoOutcome (α : Type) where
  | ok (a : α)
  | panicked (r : PanicReason)
  deriving DecidableEq, Repr

/-- Projection: the normal result of a `GoOutcome`, if it did not panic. -/
def GoOutcome.getOk? {α : Type} : GoOutcome α → Option α
  | .ok a => some a
  | .panicked _ => none

/-- The Go `error` values produced by the embedded code paths. -/
inductive ChError where
  /-- `errors.New("data is empty")` in `proposeAndWaitCommits`. -/
  | dataEmpty
  /-- `errors.New("channel destroy, ...")` guards. -/
  | destroyed
  /-- `timeoutCtx.Err()` — context deadline exceeded. -/
  | timeout
  /-- `ErrStopped`, returned when the channel's `doneC` is closed. -/
  | stopped
  /-- `ErrReactorStopped` of the reactor sub. -/
  | reactorStopped
  /-- `errors.New("messageQueue add failed")` in `handleMessage`. -/
  | msgQueueAddFailed
  /-- An error reported by an external collaborator (oracle). -/
  | external
  deriving DecidableEq, Repr

/-- Message types of the replica package that the channel code dispatches on. -/
inductive MsgType where
  | propose
  | storeAppend
  | storeAppendResp
  | applyLogsReq
  | applyLogsResp
  | sync
  | syncResp
  | other
  deriving DecidableEq, Repr

/-- A log entry: `replica.Log{Index, Term, Data}`. -/
structure ReplicaLog where
  index : Nat
  term : Nat
  data : Bytes
  deriving DecidableEq, Repr

/-- A replica message (`replica.Message`), restricted to the fields the channel
code reads: message type, addressing, indices and carried logs. -/
structure ReplicaMessage where
  msgType : MsgType
  toNode : Nat
  fromNode : Nat
  index : Nat
  committedIndex : Nat
  appliedIndex : Nat
  logs : List ReplicaLog
  deriving DecidableEq, Repr

/-- Modelled from the spec: the replica state (`replica.Replica`, whose source
is not in `src/`) restricted to what the channel reads synchronously:
`LastLogIndex()` and `Term()`. The effect of `rc.Step` is given by oracle
parameters at each call site. -/
structure Replica where
  lastLogIndex : Nat
  term : Nat
  deriving DecidableEq, Repr

/-- Modelled from the spec: `replica.Ready` (source not in `src/`) — "ready()
returns a batch of outbound actions accumulated since the last ready". -/
structure Ready where
  actions : List ReplicaMessage
  deriving DecidableEq, Repr

/-- Modelled from the spec (§4.3, source of `commitWait` not in `src/`):
"addWaitIndex(i) registers a waiter for index i"; "commitIndex(c) fires and
removes every waiter whose i ≤ c". `waiters` is the list of registered target
indices in registration order; `fired` is the history of signalled waiters. -/
structure CommitWait where
  waiters : List Nat
  fired : List Nat
  deriving DecidableEq, Repr

/-- Modelled from the spec: register a waiter for index `i`. -/
def CommitWait.addWaitIndex (w : CommitWait) (i : Nat) : CommitWait :=
  { w with waiters := w.waiters ++ [i] }

/-- Modelled from the spec: fire and remove every waiter whose index `≤ c`. -/
def CommitWait.commitIndex (w : CommitWait) (c : Nat) : CommitWait :=
  { waiters := w.waiters.filter (fun i => ¬ i ≤ c),
    fired := w.fired ++ w.waiters.filter (fun i => i ≤ c) }

/-- One entry of a local replica store queue: a pending response message and
its stored flag. -/
structure StoreQueueEntry where
  msg : ReplicaMessage
  stored : Bool
  deriving DecidableEq, Repr

/-- Modelled from the spec (§4.4, source of `localReplicaStoreQueue` not in
`src/`): "FIFO of { message, storedFlag }". -/
structure LocalStoreQueue where
  entries : List StoreQueueEntry
  deriving DecidableEq, Repr

/-- Modelled from the spec: `add(msg)` appends with `stored = false`. -/
def LocalStoreQueue.add (q : LocalStoreQueue) (m : ReplicaMessage) : LocalStoreQueue :=
  ⟨q.entries ++ [⟨m, false⟩]⟩

/-- Helper for `setStored`: mark the first entry whose message index matches. -/
def setStoredList (idx : Nat) : List StoreQueueEntry → Option (List StoreQueueEntry)
  | [] => none
  | e :: rest =>
      if e.msg.index = idx then some ({ e with stored := true } :: rest)
      else (setStoredList idx rest).map (fun r => e :: r)

/-- Modelled from the spec: `setStored(index)` finds the first entry matching
`index`, sets its flag, and returns whether it was found. -/
def LocalStoreQueue.setStored (q : LocalStoreQueue) (idx : Nat) :
    LocalStoreQueue × Bool :=
  match setStoredList idx q.entries with
  | some l => (⟨l⟩, true)
  | none => (q, false)

/-- Modelled from the spec: `firstIsStored()` — whether the head entry exists
and is stored. -/
def LocalStoreQueue.firstIsStored (q : LocalStoreQueue) : Bool :=
  match q.entries with
  | [] => false
  | e :: _ => e.stored

/-- Modelled from the spec: `removeFirst()` — "only the head may be popped
when stored". -/
def LocalStoreQueue.removeFirst (q : LocalStoreQueue) :
    Option (ReplicaMessage × LocalStoreQueue) :=
  match q.entries with
  | [] => none
  | e :: rest => if e.stored then some (e.msg, ⟨rest⟩) else none

/-- The Go `chan struct{}` used as `doneC`: only its closed flag matters. -/
structure GoChanFlag where
  closed : Bool
  deriving DecidableEq, Repr

/-- The caller-supplied `context.Context`, restricted to its cancellation
state. In the source it is consumed only by tracing. -/
structure Context where
  cancelled : Bool
  deriving DecidableEq, Repr

/-- The `channel` struct of the cluster package, restricted to the state the
verified operations read or write. `appliedIndexStore` models the channel's
key in `localstorage` (spec §6: `setAppliedIndex(channel-key, index)`);
`messageQueue` models the `ReplicaMessageQueue` contents. -/
structure Channel where
  destroy : Bool
  rc : Replica
  commitWait : CommitWait
  doneC : GoChanFlag
  lastActivity : Nat
  messageQueue : List ReplicaMessage
  appendLogStoreQueue : LocalStoreQueue
  applyLogStoreQueue : LocalStoreQueue
  appliedIndexStore : Option Nat
  deriving DecidableEq, Repr

/-- Modelled from the spec: `rc.NewMsgStoreAppendResp(index)` (replica package
not in `src/`) — the local response message carrying the appended index. -/
def newMsgStoreAppendResp (idx : Nat) : ReplicaMessage :=
  { msgType := .storeAppendResp, toNode := 0, fromNode := 0, index := idx,
    committedIndex := 0, appliedIndex := 0, logs := [] }

/-- Modelled from the spec: `rc.NewMsgApplyLogsRespMessage(committedIndex)`
(replica package not in `src/`). -/
def newMsgApplyLogsResp (idx : Nat) : ReplicaMessage :=
  { msgType := .applyLogsResp, toNode := 0, fromNode := 0, index := idx,
    committedIndex := 0, appliedIndex := 0, logs := [] }

/-- Modelled from the spec: `rc.NewProposeMessage(data)` (replica package not
in `src/`) — a propose message carrying the data. -/
def newProposeMessage (data : Bytes) : ReplicaMessage :=
  { msgType := .propose, toNode := 0, fromNode := 0, index := 0,
    committedIndex := 0, appliedIndex := 0, logs := [⟨0, 0, data⟩] }

/-! ## Core channel operations (from `src/unnamed/part_000`, cluster file) -/

/-- `channel.step`: rejects a destroyed channel, otherwise refreshes
`lastActivity` and forwards to `rc.Step`, whose result is the oracle
`rcErr` (`none` = nil error). -/
def Channel.step (c : Channel) (_msg : ReplicaMessage) (now : Nat)
    (rcErr : Option ChError) : Option ChError × Channel :=
  if c.destroy then (some .destroyed, c)
  else (rcErr, { c with lastActivity := now })

/-- `channel.stepLock`: `step` under the channel mutex (the mutex itself is
invisible to the sequential embedding). -/
def Channel.stepLock (c : Channel) (msg : ReplicaMessage) (now : Nat)
    (rcErr : Option ChError) : Option ChError × Channel :=
  c.step msg now rcErr

/-- `channel.propose`: rejects a destroyed channel, otherwise steps a new
propose message. -/
def Channel.propose (c : Channel) (data : Bytes) (now : Nat)
    (rcErr : Option ChError) : Option ChError × Channel :=
  if c.destroy then (some .destroyed, c)
  else c.stepLock (newProposeMessage data) now rcErr

/-- `channel.ready`: a destroyed channel yields an empty `replica.Ready`;
otherwise the replica's pending batch (oracle `rcReady`). -/
def Channel.ready (c : Channel) (rcReady : Ready) : Ready :=
  if c.destroy then ⟨[]⟩ else rcReady

/-- `channel.hasReady`: false on a destroyed channel, otherwise the replica's
answer (oracle `rcHas`). -/
def Channel.hasReady (c : Channel) (rcHas : Bool) : Bool :=
  if c.destroy then false else rcHas

/-- `channel.makeDestroy`: sets the destroy flag and closes `doneC`. Closing
an already-closed Go channel panics, so the returned flag records whether the
call panicked; the destroy flag is written before the close. -/
def Channel.makeDestroy (c : Channel) : Channel × Bool :=
  let c1 := { c with destroy := true }
  if c1.doneC.closed then (c1, true)
  else ({ c1 with doneC := ⟨true⟩ }, false)

/-- `channel.isDestroy`. -/
def Channel.isDestroy (c : Channel) : Bool :=
  c.destroy

/-- The log entries built by the loop in `proposeAndWaitCommits`:
`Index: c.rc.LastLogIndex() + uint64(1+i), Term: c.rc.Term(), Data: d`
(the replica is not stepped during the loop, so `LastLogIndex` is constant
across iterations). `i` is the running loop counter. -/
def buildLogs (lastLogIndex term : Nat) : Nat → List Bytes → List ReplicaLog
  | _, [] => []
  | i, d :: rest => ⟨lastLogIndex + (1 + i), term, d⟩ :: buildLogs lastLogIndex term (i + 1) rest

/-- The event that wins the final `select` of `proposeAndWaitCommits`. The
source selects on exactly these three channels: `waitC` (commit-wait fires),
`timeoutCtx.Done()` (the explicit timeout, built from `context.Background()`),
and `c.doneC` (destroy). The caller's `ctx` is not selected on. -/
inductive WaitEvent where
  /-- `<-waitC`: the commit wait fired. -/
  | commit
  /-- `<-timeoutCtx.Done()`: the explicit `timeout` argument expired. -/
  | timeout
  /-- `<-c.doneC`: the channel was destroyed. -/
  | done
  deriving DecidableEq, Repr

/-- Result record of `proposeAndWaitCommits`: the returned value, the channel
state after the synchronous section, and whether the propose message was
stepped into the replica. -/
structure ProposeWaitResult where
  result : Except ChError (List Nat)
  ch : Channel
  steppedPropose : Bool
  deriving Repr

/-- `channel.proposeAndWaitCommits(ctx, data, timeout)`. Oracles: `addWaitErr`
is the error of `commitWait.addWaitIndex` (`none` = success), `stepRcErr` the
error of `rc.Step` on the propose message, and `ev` the event that wins the
wait `select`. `ctx` is consumed only by tracing in the source and therefore
unused; `timeout` only parameterizes the timeout context. -/
def Channel.proposeAndWaitCommits (c : Channel) (ctx : Context)
    (data : List Bytes) (timeout : Nat) (now : Nat)
    (addWaitErr : Option ChError) (stepRcErr : Option ChError)
    (ev : WaitEvent) : ProposeWaitResult :=
  let _ := ctx
  let _ := timeout
  if data.length = 0 then ⟨.error .dataEmpty, c, false⟩
  else if c.destroy then ⟨.error .destroyed, c, false⟩
  else
    let logs := buildLogs c.rc.lastLogIndex c.rc.term 0 data
    let lastLogIndex := c.rc.lastLogIndex + data.length
    match addWaitErr with
    | some e => ⟨.error e, c, false⟩
    | none =>
      let c1 := { c with commitWait := c.commitWait.addWaitIndex lastLogIndex }
      match stepRcErr with
      | some e => ⟨.error e, { c1 with lastActivity := now }, true⟩
      | none =>
        let c2 := { c1 with lastActivity := now }
        match ev with
        | .commit => ⟨.ok (logs.map (fun l => l.index)), c2, true⟩
        | .timeout => ⟨.error .timeout, c2, true⟩
        | .done => ⟨.error .stopped, c2, true⟩

/-- `channel.handleMessage`: rejects a destroyed channel, refreshes
`lastActivity`, and enqueues into the bounded `messageQueue`. The tracing
branches on `MsgSync`/`MsgSyncResp` are observational and omitted. The oracle
`addOk` is the success of `messageQueue.Add` (false = full or stopped). -/
def Channel.handleMessage (c : Channel) (msg : ReplicaMessage) (now : Nat)
    (addOk : Bool) : Option ChError × Channel :=
  if c.destroy then (some .destroyed, c)
  else
    let c1 := { c with lastActivity := now }
    if addOk then (none, { c1 with messageQueue := c1.messageQueue ++ [msg] })
    else (some .msgQueueAddFailed, c1)

/-- The loop body of `handleReceivedMessages`: step each drained message in
order, stopping at the first error. `rcStep` gives `rc.Step`'s result per
message. -/
def stepMsgs (now : Nat) (rcStep : ReplicaMessage → Option ChError) :
    List ReplicaMessage → Channel → Option ChError × Channel
  | [], c => (none, c)
  | m :: rest, c =>
      match c.stepLock m now (rcStep m) with
      | (some e, c1) => (some e, c1)
      | (none, c1) => stepMsgs now rcStep rest c1

/-- `channel.handleReceivedMessages`: rejects a destroyed channel, otherwise
drains `messageQueue` (`messageQueue.Get`) and steps each message. -/
def Channel.handleReceivedMessages (c : Channel) (now : Nat)
    (rcStep : ReplicaMessage → Option ChError) : Option ChError × Channel :=
  if c.destroy then (some .destroyed, c)
  else
    let msgs := c.messageQueue
    stepMsgs now rcStep msgs { c with messageQueue := [] }

/-- `channel.handleStoreAppend`: a no-op on empty `msg.Logs`; otherwise
enqueues a pending `StoreAppendResp` for the last log's index into
`appendLogStoreQueue` and spawns `appendLogs` (the returned flag records the
spawn). -/
def Channel.handleStoreAppend (c : Channel) (msg : ReplicaMessage) :
    Channel × Bool :=
  match msg.logs with
  | [] => (c, false)
  | first :: _ =>
      let lastIndex := (msg.logs.getLastD first).index
      ({ c with appendLogStoreQueue :=
          c.appendLogStoreQueue.add (newMsgStoreAppendResp lastIndex) }, true)

/-- `channel.appendLogs` (the asynchronous body spawned by
`handleStoreAppend`): calls `MessageLogStorage.AppendLog` (oracle `appendErr`)
and panics on failure; on success marks the queue entry for the last log's
index stored, panicking if no entry matches. An empty `msg.Logs` would panic
on `msg.Logs[0]`. -/
def Channel.appendLogs (c : Channel) (msg : ReplicaMessage)
    (appendErr : Bool) : GoOutcome Channel :=
  match msg.logs with
  | [] => .panicked .indexOutOfRange
  | first :: _ =>
      let lastIndex := (msg.logs.getLastD first).index
      if appendErr then .panicked .appendLogError
      else
        match c.appendLogStoreQueue.setStored lastIndex with
        | (q, true) => .ok { c with appendLogStoreQueue := q }
        | (_, false) => .panicked .appendSetStoredFailed

/-- `channel.handleApplyLogsReq`: a no-op unless `msg.CommittedIndex > 0` and
`msg.AppliedIndex < msg.CommittedIndex`; otherwise enqueues one pending
`ApplyLogsResp` for `msg.CommittedIndex` into `applyLogStoreQueue` and spawns
`applyLogs` (the returned flag records the spawn). -/
def Channel.handleApplyLogsReq (c : Channel) (msg : ReplicaMessage) :
    Channel × Bool :=
  if msg.committedIndex ≤ 0 ∨ msg.appliedIndex ≥ msg.committedIndex then (c, false)
  else
    ({ c with applyLogStoreQueue :=
        c.applyLogStoreQueue.add (newMsgApplyLogsResp msg.committedIndex) }, true)

/-- `channel.applyLogs` (the asynchronous body spawned by
`handleApplyLogsReq`): signals `commitWait.commitIndex(msg.CommittedIndex)`,
then writes the applied index via `localstorage.setAppliedIndex` (oracle
`setAppliedErr`); on a storage error it logs and returns without marking the
queue entry stored; on success it marks the entry stored, panicking if no
entry matches. Tracing spans are omitted. -/
def Channel.applyLogs (c : Channel) (msg : ReplicaMessage)
    (setAppliedErr : Bool) : GoOutcome Channel :=
  let c1 := { c with commitWait := c.commitWait.commitIndex msg.committedIndex }
  if setAppliedErr then .ok c1
  else
    let c2 := { c1 with appliedIndexStore := some msg.committedIndex }
    match c2.applyLogStoreQueue.setStored msg.committedIndex with
    | (q, true) => .ok { c2 with applyLogStoreQueue := q }
    | (_, false) => .panicked .applySetStoredFailed

/-- First loop of `handleLocalStoreMsgs`: while the head of
`appendLogStoreQueue` is stored, pop it (`removeFirst`) and `stepLock` the
response; a step error panics. The recursion argument mirrors the queue's
entries. -/
def drainAppendQ (now : Nat) (rcStep : ReplicaMessage → Option ChError) :
    List StoreQueueEntry → Channel → GoOutcome Channel
  | [], c => .ok c
  | e :: rest, c =>
      if e.stored then
        let c1 := { c with appendLogStoreQueue := ⟨rest⟩ }
        match c1.stepLock e.msg now (rcStep e.msg) with
        | (some _, _) => .panicked .stepLocalStoreFailed
        | (none, c2) => drainAppendQ now rcStep rest c2
      else .ok c

/-- Second loop of `handleLocalStoreMsgs`: same drain for
`applyLogStoreQueue`. -/
def drainApplyQ (now : Nat) (rcStep : ReplicaMessage → Option ChError) :
    List StoreQueueEntry → Channel → GoOutcome Channel
  | [], c => .ok c
  | e :: rest, c =>
      if e.stored then
        let c1 := { c with applyLogStoreQueue := ⟨rest⟩ }
        match c1.stepLock e.msg now (rcStep e.msg) with
        | (some _, _) => .panicked .applyStepLocalStoreFailed
        | (none, c2) => drainApplyQ now rcStep rest c2
      else .ok c

/-- `channel.handleLocalStoreMsgs`: rejects a destroyed channel, then drains
`appendLogStoreQueue` head-first while stored, then `applyLogStoreQueue`. -/
def Channel.handleLocalStoreMsgs (c : Channel) (now : Nat)
    (rcStep : ReplicaMessage → Option ChError) :
    GoOutcome (Option ChError × Channel) :=
  if c.destroy then .ok (some .destroyed, c)
  else
    match drainAppendQ now rcStep c.appendLogStoreQueue.entries c with
    | .panicked r => .panicked r
    | .ok c1 =>
        match drainApplyQ now rcStep c1.applyLogStoreQueue.entries c1 with
        | .panicked r => .panicked r
        | .ok c2 => .ok (none, c2)

/-! ## Reactor sub (`src/unnamed/part_000`, server file): `stepWait` -/

/-- The 5-second cap of `stepWait`: `context.WithTimeout(context.Background(),
5*time.Second)`. -/
def stepWaitTimeoutSeconds : Nat := 5

/-- The reactor sub's shutdown-relevant state at the time of a `stepWait`
call: whether `stopper.ShouldStop()` is signalled, and whether the worker
loop is still running (after `stop()` returns, `stopper.Stop()` has already
joined the loop, so it is not). -/
structure ReactorSubState where
  shouldStop : Bool
  loopRunning : Bool
  deriving DecidableEq, Repr

/-- The event that wins `stepWait`'s submission `select` (send on
`stepChannelC` vs `stopper.ShouldStop()`). -/
inductive SubmitEvent where
  | enqueued
  | shouldStop
  deriving DecidableEq, Repr

/-- The event that wins `stepWait`'s wait `select` (`waitC` answer vs the
5-second timeout vs `stopper.ShouldStop()`). -/
inductive StepWaitEvent where
  /-- The loop dequeued the request and sent the step's error on `waitC`. -/
  | answered (e : Option ChError)
  /-- `timeoutCtx.Done()` fired after the 5-second cap. -/
  | timedOut
  /-- `stopper.ShouldStop()` fired. -/
  | shouldStop
  deriving DecidableEq, Repr

/-- Which submission events the runtime can deliver: the buffered send is
always eventually possible; the stop branch requires the stop signal. -/
def submitAdmissible (s : ReactorSubState) : SubmitEvent → Prop
  | .enqueued => True
  | .shouldStop => s.shouldStop = true

/-- Which wait events the runtime can deliver: only the running loop answers
`waitC`; the timeout branch can win only if the stop signal is not already
pending when the `select` is entered (a ready `ShouldStop` case resolves the
`select` immediately, before the 5-second deadline can elapse). -/
def waitAdmissible (s : ReactorSubState) : StepWaitEvent → Prop
  | .answered _ => s.loopRunning = true
  | .timedOut => s.shouldStop = false
  | .shouldStop => s.shouldStop = true

/-- `channelReactorSub.stepWait`, as a function of the two select outcomes:
a stop during submission returns `ErrReactorStopped` at once; after a
successful submission the wait returns the answered error, the timeout error,
or `ErrReactorStopped`. -/
def stepWaitModel (sEv : SubmitEvent) (wEv : StepWaitEvent) : Option ChError :=
  match sEv with
  | .shouldStop => some .reactorStopped
  | .enqueued =>
      match wEv with
      | .answered e => e
      | .timedOut => some .timeout
      | .shouldStop => some .reactorStopped

/-! ## Sample values (used by witnesses and counterexamples) -/

/-- A fresh, healthy channel: last log index 5, term 2, nothing queued. -/
def sampleChannel : Channel :=
  { destroy := false, rc := ⟨5, 2⟩, commitWait := ⟨[], []⟩, doneC := ⟨false⟩,
    lastActivity := 0, messageQueue := [], appendLogStoreQueue := ⟨[]⟩,
    applyLogStoreQueue := ⟨[]⟩, appliedIndexStore := none }

/-- A destroyed channel (destroy flag set, `doneC` closed). -/
def destroyedChannel : Channel :=
  { sampleChannel with destroy := true, doneC := ⟨true⟩ }

/-- A three-entry propose batch. -/
def sampleData : List Bytes := [[1], [2], [3]]

/-- A caller context that has not been cancelled. -/
def sampleCtx : Context := ⟨false⟩

/-- A `MsgStoreAppend` message carrying two logs. -/
def sampleAppendMsg : ReplicaMessage :=
  { msgType := .storeAppend, toNode := 0, fromNode := 0, index := 0,
    committedIndex := 0, appliedIndex := 0, logs := [⟨6, 2, [7]⟩, ⟨7, 2, [8]⟩] }

/-- A `MsgApplyLogsReq` message: committed index 4, applied index 1. -/
def sampleApplyMsg : ReplicaMessage :=
  { msgType := .applyLogsReq, toNode := 0, fromNode := 0, index := 0,
    committedIndex := 4, appliedIndex := 1, logs := [] }

/-! ## Helper lemmas -/

theorem buildLogs_length (L T : Nat) :
    ∀ (data : List Bytes) (i : Nat), (buildLogs L T i data).length = data.length := by
  intro data
  induction data with
  | nil => intro i; rfl
  | cons d rest ih => intro i; simp [buildLogs, ih]

theorem buildLogs_term (L T : Nat) :
    ∀ (data : List Bytes) (i : Nat) (l : ReplicaLog),
      l ∈ buildLogs L T i data → l.term = T := by
  intro data
  induction data with
  | nil => intro i l h; cases h
  | cons d rest ih =>
    intro i l h
    simp only [buildLogs, List.mem_cons] at h
    rcases h with h | h
    · rw [h]
    · exact ih (i + 1) l h

theorem buildLogs_map_index (L T : Nat) :
    ∀ (data : List Bytes) (i : Nat),
      (buildLogs L T i data).map (fun l => l.index) = List.range' (L + 1 + i) data.length := by
  intro data
  induction data with
  | nil => intro i; rfl
  | cons d rest ih =>
    intro i
    have h1 : L + (1 + i) = L + 1 + i := by omega
    have h2 : L + 1 + (i + 1) = L + 1 + i + 1 := by omega
    simp only [buildLogs, List.map_cons, ih (i + 1), List.length_cons,
      List.range'_succ, h1, h2]

/-! ## Claim theorems -/

/-- C1: on a non-destroyed channel with non-empty data, where the replica has
last log index `L` and current term `T`, `proposeAndWaitCommits` builds
exactly `len(data)` log entries, each with term `T`, whose indices are the
contiguous range `L+1, ..., L+len(data)` (duplicate-free, and containing
exactly the naturals between `L+1` and `L+len(data)`), and on success (the
commit wait fires) returns exactly that range. -/
theorem c1_proposeAndWaitCommits_contiguous_indices (c : Channel) (ctx : Context)
    (data : List Bytes) (timeout now : Nat)
    (hd : c.destroy = false) (hne : data ≠ []) :
    (buildLogs c.rc.lastLogIndex c.rc.term 0 data).length = data.length ∧
    (∀ l ∈ buildLogs c.rc.lastLogIndex c.rc.term 0 data, l.term = c.rc.term) ∧
    (buildLogs c.rc.lastLogIndex c.rc.term 0 data).map (fun l => l.index)
      = List.range' (c.rc.lastLogIndex + 1) data.length ∧
    (c.proposeAndWaitCommits ctx data timeout now none none .commit).result
      = .ok (List.range' (c.rc.lastLogIndex + 1) data.length) ∧
    (List.range' (c.rc.lastLogIndex + 1) data.length).Nodup ∧
    (∀ k, k ∈ List.range' (c.rc.lastLogIndex + 1) data.length ↔
      c.rc.lastLogIndex + 1 ≤ k ∧ k ≤ c.rc.lastLogIndex + data.length) := by
  have hlen : ¬ data.length = 0 := by
    simpa [List.length_eq_zero] using hne
  have hmap : (buildLogs c.rc.lastLogIndex c.rc.term 0 data).map (fun l => l.index)
      = List.range' (c.rc.lastLogIndex + 1) data.length := by
    simpa using buildLogs_map_index c.rc.lastLogIndex c.rc.term data 0
  refine ⟨buildLogs_length _ _ _ _, buildLogs_term _ _ _ _, hmap, ?_, ?_, ?_⟩
  · simp [Channel.proposeAndWaitCommits, hd, hlen, hmap]
  · exact List.nodup_range' _ _
  · intro k
    rw [List.mem_range'_1]
    omega

/-- Witness for C1: a three-entry batch on a channel at last log index 5,
term 2 yields indices 6, 7, 8. -/
theorem c1_witness :
    (buildLogs sampleChannel.rc.lastLogIndex sampleChannel.rc.term 0 sampleData).length
      = sampleData.length ∧
    (∀ l ∈ buildLogs sampleChannel.rc.lastLogIndex sampleChannel.rc.term 0 sampleData,
      l.term = sampleChannel.rc.term) ∧
    (buildLogs sampleChannel.rc.lastLogIndex sampleChannel.rc.term 0 sampleData).map
        (fun l => l.index)
      = List.range' (sampleChannel.rc.lastLogIndex + 1) sampleData.length ∧
    (sampleChannel.proposeAndWaitCommits sampleCtx sampleData 9 7 none none .commit).result
      = .ok (List.range' (sampleChannel.rc.lastLogIndex + 1) sampleData.length) ∧
    (List.range' (sampleChannel.rc.lastLogIndex + 1) sampleData.length).Nodup ∧
    (∀ k, k ∈ List.range' (sampleChannel.rc.lastLogIndex + 1) sampleData.length ↔
      sampleChannel.rc.lastLogIndex + 1 ≤ k ∧
        k ≤ sampleChannel.rc.lastLogIndex + sampleData.length) :=
  c1_proposeAndWaitCommits_contiguous_indices sampleChannel sampleCtx sampleData 9 7
    rfl (by decide)

/-- C2: after the propose message is stepped, the wait resolves on exactly one
of the three modelled events — commit-wait fires (returns the assigned
indices), the explicit timeout expires (timeout error), or the done channel is
closed by destroy (Stopped) — and the outcome does not depend on the
caller-supplied ctx, which the wait does not select on. -/
theorem c2_proposeAndWaitCommits_wait_outcomes (c : Channel) (ctx : Context)
    (data : List Bytes) (timeout now : Nat)
    (hd : c.destroy = false) (hne : data ≠ []) :
    (c.proposeAndWaitCommits ctx data timeout now none none .commit).result
      = .ok ((buildLogs c.rc.lastLogIndex c.rc.term 0 data).map (fun l => l.index)) ∧
    (c.proposeAndWaitCommits ctx data timeout now none none .timeout).result
      = .error .timeout ∧
    (c.proposeAndWaitCommits ctx data timeout now none none .done).result
      = .error .stopped ∧
    (∀ ctx1 ctx2 aw se ev,
      c.proposeAndWaitCommits ctx1 data timeout now aw se ev
        = c.proposeAndWaitCommits ctx2 data timeout now aw se ev) := by
  have hlen : ¬ data.length = 0 := by
    simpa [List.length_eq_zero] using hne
  refine ⟨?_, ?_, ?_, ?_⟩
  · simp [Channel.proposeAndWaitCommits, hd, hlen]
  · simp [Channel.proposeAndWaitCommits, hd, hlen]
  · simp [Channel.proposeAndWaitCommits, hd, hlen]
  · intro ctx1 ctx2 aw se ev
    rfl

/-- Witness for C2 at a concrete channel, batch and wait events. -/
theorem c2_witness :
    (sampleChannel.proposeAndWaitCommits sampleCtx sampleData 9 7 none none .commit).result
      = .ok ((buildLogs sampleChannel.rc.lastLogIndex sampleChannel.rc.term 0
          sampleData).map (fun l => l.index)) ∧
    (sampleChannel.proposeAndWaitCommits sampleCtx sampleData 9 7 none none .timeout).result
      = .error .timeout ∧
    (sampleChannel.proposeAndWaitCommits sampleCtx sampleData 9 7 none none .done).result
      = .error .stopped ∧
    (∀ ctx1 ctx2 aw se ev,
      sampleChannel.proposeAndWaitCommits ctx1 sampleData 9 7 aw se ev
        = sampleChannel.proposeAndWaitCommits ctx2 sampleData 9 7 aw se ev) :=
  c2_proposeAndWaitCommits_wait_outcomes sampleChannel sampleCtx sampleData 9 7
    rfl (by decide)

/-- C9: `proposeAndWaitCommits` with empty data returns the "data is empty"
error immediately, for every ctx, timeout and oracle outcome, leaving the
channel untouched (no waiter registered, no propose message stepped, no log
entries built). -/
theorem c9_proposeAndWaitCommits_empty_data (c : Channel) (ctx : Context)
    (timeout now : Nat) (aw se : Option ChError) (ev : WaitEvent) :
    c.proposeAndWaitCommits ctx [] timeout now aw se ev
      = ⟨.error .dataEmpty, c, false⟩ :=
  rfl

/-- C3: once the destroy flag is set, every public operation fails with an
error and produces no further actions: `step`, `stepLock`, `propose`,
`proposeAndWaitCommits`, `handleMessage`, `handleReceivedMessages` and
`handleLocalStoreMsgs` return an error and leave the channel untouched,
`ready` returns an empty batch, and `hasReady` returns false. -/
theorem c3_destroyed_all_operations_fail (c : Channel) (h : c.destroy = true) :
    (∀ msg now rcErr, c.step msg now rcErr = (some .destroyed, c)) ∧
    (∀ msg now rcErr, c.stepLock msg now rcErr = (some .destroyed, c)) ∧
    (∀ data now rcErr, c.propose data now rcErr = (some .destroyed, c)) ∧
    (∀ ctx data timeout now aw se ev,
      (c.proposeAndWaitCommits ctx data timeout now aw se ev).ch = c ∧
      (c.proposeAndWaitCommits ctx data timeout now aw se ev).steppedPropose = false ∧
      ∃ e, (c.proposeAndWaitCommits ctx data timeout now aw se ev).result = .error e) ∧
    (∀ msg now addOk, c.handleMessage msg now addOk = (some .destroyed, c)) ∧
    (∀ now rcStep, c.handleReceivedMessages now rcStep = (some .destroyed, c)) ∧
    (∀ now rcStep, c.handleLocalStoreMsgs now rcStep = .ok (some .destroyed, c)) ∧
    (∀ rd, c.ready rd = ⟨[]⟩) ∧
    (∀ b, c.hasReady b = false) := by
  refine ⟨?_, ?_, ?_, ?_, ?_, ?_, ?_, ?_, ?_⟩
  · intro msg now rcErr; simp [Channel.step, h]
  · intro msg now rcErr; simp [Channel.stepLock, Channel.step, h]
  · intro data now rcErr; simp [Channel.propose, h]
  · intro ctx data timeout now aw se ev
    by_cases hdata : data.length = 0
    · refine ⟨?_, ?_, .dataEmpty, ?_⟩ <;>
        simp [Channel.proposeAndWaitCommits, hdata]
    · refine ⟨?_, ?_, .destroyed, ?_⟩ <;>
        simp [Channel.proposeAndWaitCommits, hdata, h]
  · intro msg now addOk; simp [Channel.handleMessage, h]
  · intro now rcStep; simp [Channel.handleReceivedMessages, h]
  · intro now rcStep; simp [Channel.handleLocalStoreMsgs, h]
  · intro rd; simp [Channel.ready, h]
  · intro b; simp [Channel.hasReady, h]

/-- Witness for C3 at a concrete destroyed channel. -/
theorem c3_witness :
    (∀ msg now rcErr,
      destroyedChannel.step msg now rcErr = (some .destroyed, destroyedChannel)) ∧
    (∀ msg now rcErr,
      destroyedChannel.stepLock msg now rcErr = (some .destroyed, destroyedChannel)) ∧
    (∀ data now rcErr,
      destroyedChannel.propose data now rcErr = (some .destroyed, destroyedChannel)) ∧
    (∀ ctx data timeout now aw se ev,
      (destroyedChannel.proposeAndWaitCommits ctx data timeout now aw se ev).ch
        = destroyedChannel ∧
      (destroyedChannel.proposeAndWaitCommits ctx data timeout now aw se ev).steppedPropose
        = false ∧
      ∃ e, (destroyedChannel.proposeAndWaitCommits ctx data timeout now aw se ev).result
        = .error e) ∧
    (∀ msg now addOk,
      destroyedChannel.handleMessage msg now addOk = (some .destroyed, destroyedChannel)) ∧
    (∀ now rcStep,
      destroyedChannel.handleReceivedMessages now rcStep
        = (some .destroyed, destroyedChannel)) ∧
    (∀ now rcStep,
      destroyedChannel.handleLocalStoreMsgs now rcStep
        = .ok (some .destroyed, destroyedChannel)) ∧
    (∀ rd, destroyedChannel.ready rd = ⟨[]⟩) ∧
    (∀ b, destroyedChannel.hasReady b = false) :=
  c3_destroyed_all_operations_fail destroyedChannel rfl

/-- C4 counterexample: `makeDestroy` is not idempotent — on a channel whose
done channel is open, the second of two consecutive `makeDestroy` calls
panics (Go `close` of an already-closed channel), so calling it twice does
not have the same effect as calling it once and repeated calls do fail. -/
theorem c4_counterexample_second_makeDestroy_panics :
    (Channel.makeDestroy (Channel.makeDestroy sampleChannel).1).2 = true :=
  rfl

/-- C4 amended: the first `makeDestroy` call sets the destroyed flag, closes
the done channel and does not panic; every further call panics on the double
close, leaving the state otherwise unchanged (so only the panic distinguishes
N calls from one). -/
theorem c4_amended_makeDestroy (c : Channel) (h : c.doneC.closed = false) :
    c.makeDestroy.1.destroy = true ∧
    c.makeDestroy.1.doneC.closed = true ∧
    c.makeDestroy.2 = false ∧
    c.makeDestroy.1.makeDestroy.2 = true ∧
    c.makeDestroy.1.makeDestroy.1 = c.makeDestroy.1 := by
  simp [Channel.makeDestroy, h]

/-- Witness for the amended C4 at a concrete open channel. -/
theorem c4_witness :
    sampleChannel.makeDestroy.1.destroy = true ∧
    sampleChannel.makeDestroy.1.doneC.closed = true ∧
    sampleChannel.makeDestroy.2 = false ∧
    sampleChannel.makeDestroy.1.makeDestroy.2 = true ∧
    sampleChannel.makeDestroy.1.makeDestroy.1 = sampleChannel.makeDestroy.1 :=
  c4_amended_makeDestroy sampleChannel rfl

/-- C5: if the message log storage's `AppendLog` fails during the
asynchronous append, `appendLogs` panics (the process terminates); in
particular the batch's queue entry is never marked stored — the function
never reaches `setStored` and returns no successor state. -/
theorem c5_appendLogs_storage_failure_fatal (c : Channel) (msg : ReplicaMessage)
    (h : msg.logs ≠ []) :
    c.appendLogs msg true = .panicked .appendLogError ∧
    (∀ c1, c.appendLogs msg true ≠ .ok c1) := by
  match hl : msg.logs with
  | [] => exact absurd hl h
  | first :: rest =>
    constructor
    · simp [Channel.appendLogs, hl]
    · intro c1
      simp [Channel.appendLogs, hl]

/-- Witness for C5 at a concrete channel and append batch. -/
theorem c5_witness :
    sampleChannel.appendLogs sampleAppendMsg true = .panicked .appendLogError ∧
    (∀ c1, sampleChannel.appendLogs sampleAppendMsg true ≠ .ok c1) :=
  c5_appendLogs_storage_failure_fatal sampleChannel sampleAppendMsg (by decide)

/-- C10: `handleApplyLogsReq` is a complete no-op (no enqueue, no spawn of the
asynchronous apply — hence no commit-wait signal and no applied-index write)
whenever `committedIndex ≤ 0` or `appliedIndex ≥ committedIndex`; otherwise
it enqueues exactly one pending `ApplyLogsResp` entry keyed by
`committedIndex` before starting the asynchronous apply. -/
theorem c10_handleApplyLogsReq_guard (c : Channel) (msg : ReplicaMessage) :
    (msg.committedIndex ≤ 0 ∨ msg.appliedIndex ≥ msg.committedIndex →
      c.handleApplyLogsReq msg = (c, false)) ∧
    (0 < msg.committedIndex → msg.appliedIndex < msg.committedIndex →
      c.handleApplyLogsReq msg
        = ({ c with applyLogStoreQueue :=
            c.applyLogStoreQueue.add (newMsgApplyLogsResp msg.committedIndex) }, true) ∧
      (c.handleApplyLogsReq msg).1.applyLogStoreQueue.entries
        = c.applyLogStoreQueue.entries
            ++ [⟨newMsgApplyLogsResp msg.committedIndex, false⟩]) := by
  constructor
  · intro hguard
    rw [Channel.handleApplyLogsReq, if_pos hguard]
  · intro h1 h2
    have hguard : ¬ (msg.committedIndex ≤ 0 ∨ msg.appliedIndex ≥ msg.committedIndex) := by
      omega
    constructor
    · rw [Channel.handleApplyLogsReq, if_neg hguard]
    · rw [Channel.handleApplyLogsReq, if_neg hguard]
      simp [LocalStoreQueue.add]

/-- Witness for C10: the no-op guard at applied = committed, and the single
enqueue at committed 4 > applied 1. -/
theorem c10_witness :
    (sampleApplyMsg.committedIndex ≤ 0 ∨
        sampleApplyMsg.appliedIndex ≥ sampleApplyMsg.committedIndex →
      sampleChannel.handleApplyLogsReq sampleApplyMsg = (sampleChannel, false)) ∧
    (0 < sampleApplyMsg.committedIndex →
      sampleApplyMsg.appliedIndex < sampleApplyMsg.committedIndex →
      sampleChannel.handleApplyLogsReq sampleApplyMsg
        = ({ sampleChannel with applyLogStoreQueue :=
            sampleChannel.applyLogStoreQueue.add (newMsgApplyLogsResp sampleApplyMsg.committedIndex) }, true) ∧
      (sampleChannel.handleApplyLogsReq sampleApplyMsg).1.applyLogStoreQueue.entries
        = sampleChannel.applyLogStoreQueue.entries
            ++ [⟨newMsgApplyLogsResp sampleApplyMsg.committedIndex, false⟩]) :=
  c10_handleApplyLogsReq_guard sampleChannel sampleApplyMsg

/-- C6: when `setAppliedIndex` fails during `applyLogs`, the failure is
skipped: the call returns without panicking, the commit wait has already been
signalled for `committedIndex`, the applied index is not written and the
queue entry is not marked stored; a subsequent apply for the same committed
index re-advances the applied index and marks the (stuck) queue head stored,
so the apply pipeline can make progress afterwards. -/
theorem c6_applyLogs_setApplied_failure_skipped (c : Channel) (msg : ReplicaMessage)
    (hq : c.applyLogStoreQueue.entries = [])
    (hk : 0 < msg.committedIndex) (ha : msg.appliedIndex < msg.committedIndex) :
    (c.handleApplyLogsReq msg).2 = true ∧
    (c.handleApplyLogsReq msg).1.applyLogStoreQueue.entries
      = [⟨newMsgApplyLogsResp msg.committedIndex, false⟩] ∧
    (c.handleApplyLogsReq msg).1.applyLogs msg true
      = .ok { (c.handleApplyLogsReq msg).1 with
              commitWait := c.commitWait.commitIndex msg.committedIndex } ∧
    (∀ c2, (c.handleApplyLogsReq msg).1.applyLogs msg true = .ok c2 →
      c2.appliedIndexStore = c.appliedIndexStore ∧
      c2.applyLogStoreQueue = (c.handleApplyLogsReq msg).1.applyLogStoreQueue ∧
      c2.commitWait.fired = c.commitWait.fired
          ++ c.commitWait.waiters.filter (fun i => i ≤ msg.committedIndex) ∧
      ((c2.handleApplyLogsReq msg).1.applyLogs msg false).getOk?.map
          (fun c4 => (c4.appliedIndexStore, c4.applyLogStoreQueue.firstIsStored))
        = some (some msg.committedIndex, true)) := by
  have hguard : ¬ (msg.committedIndex ≤ 0 ∨ msg.appliedIndex ≥ msg.committedIndex) := by
    omega
  have hcond : (msg.committedIndex ≤ 0 ∨ msg.appliedIndex ≥ msg.committedIndex) = False :=
    eq_false hguard
  refine ⟨?_, ?_, ?_, ?_⟩
  · rw [Channel.handleApplyLogsReq, if_neg hguard]
  · rw [Channel.handleApplyLogsReq, if_neg hguard]
    simp [LocalStoreQueue.add, hq]
  · rw [Channel.handleApplyLogsReq, if_neg hguard]
    simp [Channel.applyLogs]
  · intro c2 heq
    have hc1 : (c.handleApplyLogsReq msg).1
        = { c with applyLogStoreQueue :=
            c.applyLogStoreQueue.add (newMsgApplyLogsResp msg.committedIndex) } := by
      rw [Channel.handleApplyLogsReq, if_neg hguard]
    rw [hc1] at heq
    have hc2 : c2 = { c with
        applyLogStoreQueue := c.applyLogStoreQueue.add (newMsgApplyLogsResp msg.committedIndex),
        commitWait := c.commitWait.commitIndex msg.committedIndex } := by
      simp [Channel.applyLogs] at heq
      exact heq.symm
    subst hc2
    refine ⟨rfl, ?_, ?_, ?_⟩
    · rw [hc1]
    · simp [CommitWait.commitIndex]
    · rw [Channel.handleApplyLogsReq, if_neg hguard]
      simp [Channel.applyLogs, LocalStoreQueue.add, hq, LocalStoreQueue.setStored,
        setStoredList, newMsgApplyLogsResp, GoOutcome.getOk?,
        LocalStoreQueue.firstIsStored]

/-- Witness for C6 at a concrete channel and apply request. -/
theorem c6_witness :
    (sampleChannel.handleApplyLogsReq sampleApplyMsg).2 = true ∧
    (sampleChannel.handleApplyLogsReq sampleApplyMsg).1.applyLogStoreQueue.entries
      = [⟨newMsgApplyLogsResp sampleApplyMsg.committedIndex, false⟩] ∧
    (sampleChannel.handleApplyLogsReq sampleApplyMsg).1.applyLogs sampleApplyMsg true
      = .ok { (sampleChannel.handleApplyLogsReq sampleApplyMsg).1 with
              commitWait := sampleChannel.commitWait.commitIndex
                sampleApplyMsg.committedIndex } ∧
    (∀ c2, (sampleChannel.handleApplyLogsReq sampleApplyMsg).1.applyLogs sampleApplyMsg true
        = .ok c2 →
      c2.appliedIndexStore = sampleChannel.appliedIndexStore ∧
      c2.applyLogStoreQueue
        = (sampleChannel.handleApplyLogsReq sampleApplyMsg).1.applyLogStoreQueue ∧
      c2.commitWait.fired = sampleChannel.commitWait.fired
          ++ sampleChannel.commitWait.waiters.filter
            (fun i => i ≤ sampleApplyMsg.committedIndex) ∧
      ((c2.handleApplyLogsReq sampleApplyMsg).1.applyLogs sampleApplyMsg false).getOk?.map
          (fun c4 => (c4.appliedIndexStore, c4.applyLogStoreQueue.firstIsStored))
        = some (some sampleApplyMsg.committedIndex, true)) :=
  c6_applyLogs_setApplied_failure_skipped sampleChannel sampleApplyMsg rfl
    (by decide) (by decide)

theorem drainAppendQ_stored_prefix (now : Nat) :
    ∀ (q : List StoreQueueEntry) (c : Channel), c.destroy = false →
      c.appendLogStoreQueue.entries = q →
      ∃ la, drainAppendQ now (fun _ => none) q c
        = .ok { c with
            appendLogStoreQueue := ⟨q.dropWhile (fun e => e.stored)⟩,
            lastActivity := la } := by
  intro q
  induction q with
  | nil =>
    intro c hd hq
    obtain ⟨d, rc, cw, dc, la, mq, ⟨apqe⟩, alq, ai⟩ := c
    simp only at hq
    subst hq
    exact ⟨la, rfl⟩
  | cons e rest ih =>
    intro c hd hq
    obtain ⟨d, rc, cw, dc, la, mq, ⟨apqe⟩, alq, ai⟩ := c
    simp only at hd hq
    subst hd
    subst hq
    by_cases hs : e.stored = true
    · obtain ⟨la2, h2⟩ := ih ⟨false, rc, cw, dc, now, mq, ⟨rest⟩, alq, ai⟩ rfl rfl
      refine ⟨la2, ?_⟩
      simpa [drainAppendQ, hs, Channel.stepLock, Channel.step] using h2
    · refine ⟨la, ?_⟩
      have hs2 : e.stored = false := by
        cases h : e.stored
        · rfl
        · exact absurd h hs
      simp [drainAppendQ, hs2, List.dropWhile_cons, Channel.stepLock, Channel.step]

theorem drainApplyQ_stored_prefix (now : Nat) :
    ∀ (q : List StoreQueueEntry) (c : Channel), c.destroy = false →
      c.applyLogStoreQueue.entries = q →
      ∃ la, drainApplyQ now (fun _ => none) q c
        = .ok { c with
            applyLogStoreQueue := ⟨q.dropWhile (fun e => e.stored)⟩,
            lastActivity := la } := by
  intro q
  induction q with
  | nil =>
    intro c hd hq
    obtain ⟨d, rc, cw, dc, la, mq, apq, ⟨alqe⟩, ai⟩ := c
    simp only at hq
    subst hq
    exact ⟨la, rfl⟩
  | cons e rest ih =>
    intro c hd hq
    obtain ⟨d, rc, cw, dc, la, mq, apq, ⟨alqe⟩, ai⟩ := c
    simp only at hd hq
    subst hd
    subst hq
    by_cases hs : e.stored = true
    · obtain ⟨la2, h2⟩ := ih ⟨false, rc, cw, dc, now, mq, apq, ⟨rest⟩, ai⟩ rfl rfl
      refine ⟨la2, ?_⟩
      simpa [drainApplyQ, hs, Channel.stepLock, Channel.step] using h2
    · refine ⟨la, ?_⟩
      have hs2 : e.stored = false := by
        cases h : e.stored
        · rfl
        · exact absurd h hs
      simp [drainApplyQ, hs2, List.dropWhile_cons, Channel.stepLock, Channel.step]

/-- C7: `handleLocalStoreMsgs` drains each local-store queue strictly
head-first: with every step succeeding, it pops exactly the longest stored
prefix of `appendLogStoreQueue`, then of `applyLogStoreQueue` (each queue is
left with exactly the entries after that prefix, so a stored entry behind an
unstored one is never popped), and an unstored head leaves its queue
untouched even when later entries are stored. -/
theorem c7_handleLocalStoreMsgs_head_first (c : Channel) (now : Nat)
    (h : c.destroy = false) :
    (c.handleLocalStoreMsgs now (fun _ => none)).getOk?.map
        (fun p => (p.1, p.2.appendLogStoreQueue.entries, p.2.applyLogStoreQueue.entries))
      = some (none,
          c.appendLogStoreQueue.entries.dropWhile (fun e => e.stored),
          c.applyLogStoreQueue.entries.dropWhile (fun e => e.stored)) ∧
    c.appendLogStoreQueue.entries
      = c.appendLogStoreQueue.entries.takeWhile (fun e => e.stored)
        ++ c.appendLogStoreQueue.entries.dropWhile (fun e => e.stored) ∧
    c.applyLogStoreQueue.entries
      = c.applyLogStoreQueue.entries.takeWhile (fun e => e.stored)
        ++ c.applyLogStoreQueue.entries.dropWhile (fun e => e.stored) ∧
    (∀ e es, c.appendLogStoreQueue.entries = e :: es → e.stored = false →
      (c.handleLocalStoreMsgs now (fun _ => none)).getOk?.map
          (fun p => p.2.appendLogStoreQueue.entries)
        = some (e :: es)) := by
  obtain ⟨laA, hA⟩ :=
    drainAppendQ_stored_prefix now c.appendLogStoreQueue.entries c h rfl
  obtain ⟨laP, hP⟩ :=
    drainApplyQ_stored_prefix now c.applyLogStoreQueue.entries
      { c with
        appendLogStoreQueue :=
          ⟨c.appendLogStoreQueue.entries.dropWhile (fun e => e.stored)⟩,
        lastActivity := laA } h rfl
  have hmain : (c.handleLocalStoreMsgs now (fun _ => none)).getOk?.map
      (fun p => (p.1, p.2.appendLogStoreQueue.entries, p.2.applyLogStoreQueue.entries))
      = some (none,
          c.appendLogStoreQueue.entries.dropWhile (fun e => e.stored),
          c.applyLogStoreQueue.entries.dropWhile (fun e => e.stored)) := by
    rw [Channel.handleLocalStoreMsgs]
    simp only [h, Bool.false_eq_true, if_false]
    rw [hA]
    simp only []
    rw [hP]
    simp [GoOutcome.getOk?]
  refine ⟨hmain, (List.takeWhile_append_dropWhile _ _).symm,
    (List.takeWhile_append_dropWhile _ _).symm, ?_⟩
  intro e es hq hs
  cases hres : c.handleLocalStoreMsgs now (fun _ => none) with
  | panicked r =>
    rw [hres] at hmain
    simp [GoOutcome.getOk?] at hmain
  | ok p =>
    rw [hres] at hmain
    simp only [GoOutcome.getOk?] at hmain ⊢
    simp only [Option.map_some', Option.some.injEq, Prod.mk.injEq] at hmain ⊢
    rw [hmain.2.1, hq]
    simp [List.dropWhile_cons, hs]

/-- A channel whose queues exercise the head-first drain: the append queue has
a stored prefix of length one followed by an unstored entry and a stored
entry behind it; the apply queue has an unstored head before a stored entry. -/
def queuedChannel : Channel :=
  { sampleChannel with
    appendLogStoreQueue := ⟨[⟨newMsgStoreAppendResp 6, true⟩,
      ⟨newMsgStoreAppendResp 7, false⟩, ⟨newMsgStoreAppendResp 8, true⟩]⟩,
    applyLogStoreQueue := ⟨[⟨newMsgApplyLogsResp 4, false⟩,
      ⟨newMsgApplyLogsResp 5, true⟩]⟩ }

/-- Witness for C7 at a concrete channel with mixed stored flags. -/
theorem c7_witness :
    (queuedChannel.handleLocalStoreMsgs 3 (fun _ => none)).getOk?.map
        (fun p => (p.1, p.2.appendLogStoreQueue.entries, p.2.applyLogStoreQueue.entries))
      = some (none,
          queuedChannel.appendLogStoreQueue.entries.dropWhile (fun e => e.stored),
          queuedChannel.applyLogStoreQueue.entries.dropWhile (fun e => e.stored)) ∧
    queuedChannel.appendLogStoreQueue.entries
      = queuedChannel.appendLogStoreQueue.entries.takeWhile (fun e => e.stored)
        ++ queuedChannel.appendLogStoreQueue.entries.dropWhile (fun e => e.stored) ∧
    queuedChannel.applyLogStoreQueue.entries
      = queuedChannel.applyLogStoreQueue.entries.takeWhile (fun e => e.stored)
        ++ queuedChannel.applyLogStoreQueue.entries.dropWhile (fun e => e.stored) ∧
    (∀ e es, queuedChannel.appendLogStoreQueue.entries = e :: es → e.stored = false →
      (queuedChannel.handleLocalStoreMsgs 3 (fun _ => none)).getOk?.map
          (fun p => p.2.appendLogStoreQueue.entries)
        = some (e :: es)) :=
  c7_handleLocalStoreMsgs_head_first queuedChannel 3 rfl

/-- C8: `stepWait` waits on its per-call error channel under a 5-second cap:
if the loop answers it returns the step's error, if the cap expires it
returns the timeout error, and a shutdown signal during either submission or
the wait yields `ErrReactorStopped`; moreover for a reactor sub whose
shutdown has completed (stop signalled, loop joined — the state after
`stop()` returns), every admissible pair of select outcomes yields
`ErrReactorStopped`, so the timeout branch (the only way to spend the full 5
seconds) cannot be taken. -/
theorem c8_stepWait_outcomes (s : ReactorSubState)
    (hstop : s.shouldStop = true) (hloop : s.loopRunning = false) :
    stepWaitTimeoutSeconds = 5 ∧
    (∀ e, stepWaitModel .enqueued (.answered e) = e) ∧
    stepWaitModel .enqueued .timedOut = some .timeout ∧
    stepWaitModel .enqueued .shouldStop = some .reactorStopped ∧
    (∀ wEv, stepWaitModel .shouldStop wEv = some .reactorStopped) ∧
    (∀ sEv wEv, submitAdmissible s sEv → waitAdmissible s wEv →
      stepWaitModel sEv wEv = some .reactorStopped) := by
  refine ⟨rfl, fun e => rfl, rfl, rfl, fun wEv => rfl, ?_⟩
  intro sEv wEv hsub hwait
  cases sEv with
  | shouldStop => rfl
  | enqueued =>
    cases wEv with
    | answered e =>
      rw [waitAdmissible] at hwait
      rw [hwait] at hloop
      cases hloop
    | timedOut =>
      rw [waitAdmissible] at hwait
      rw [hwait] at hstop
      cases hstop
    | shouldStop => rfl

/-- Witness for C8 at the post-shutdown reactor-sub state. -/
theorem c8_witness :
    stepWaitTimeoutSeconds = 5 ∧
    (∀ e, stepWaitModel .enqueued (.answered e) = e) ∧
    stepWaitModel .enqueued .timedOut = some .timeout ∧
    stepWaitModel .enqueued .shouldStop = some .reactorStopped ∧
    (∀ wEv, stepWaitModel .shouldStop wEv = some .reactorStopped) ∧
    (∀ sEv wEv, submitAdmissible ⟨true, false⟩ sEv → waitAdmissible ⟨true, false⟩ wEv →
      stepWaitModel sEv wEv = some .reactorStopped) :=
  c8_stepWait_outcomes ⟨true, false⟩ rfl rfl

end WuKongIM
